import Mathlib

/-
Shallow embedding of the Polycom SoundStructure companion module
(src/main.js).  Strings are modelled as lists of characters; the
JavaScript string operations used by the module (startsWith, substring,
split, trim, replace, regex exec with greedy groups, parseInt) are
reproduced faithfully.  The module instance's mutable fields become an
explicit state record; socket handlers become event functions; logging,
status updates, socket sends and consumer refresh calls become an
explicit effect list.  JavaScript NaN (from parseInt on a missing or
non-numeric value) is modelled as `none : Option Int`.
-/

namespace SoundStructure

abbrev Str := List Char

def lit (s : String) : Str := s.data

/-- JavaScript whitespace characters relevant to the ASCII protocol
(String.prototype.trim and parseInt skip these). -/
def jsWhite (c : Char) : Bool :=
  c = ' ' || c = '\t' || c = '\n' || c = '\r' || c = '\x0b' || c = '\x0c'

def trimLeftWs : Str → Str
  | [] => []
  | c :: cs => if jsWhite c then trimLeftWs cs else c :: cs

/-- JavaScript String.prototype.trim. -/
def jsTrim (s : Str) : Str :=
  ((trimLeftWs ((trimLeftWs s).reverse)).reverse)

/-- JavaScript String.prototype.split with a one-character separator:
splits on every occurrence; the empty string yields one empty field. -/
def splitChar (sep : Char) : Str → List Str
  | [] => [[]]
  | c :: cs =>
    match splitChar sep cs with
    | [] => if c = sep then [[], []] else [[c]]
    | h :: t => if c = sep then [] :: h :: t else (c :: h) :: t

/-- JavaScript String.prototype.startsWith: strStarts pat s. -/
def strStarts : Str → Str → Bool
  | [], _ => true
  | _ :: _, [] => false
  | p :: ps, c :: cs => p == c && strStarts ps cs

/-- Greedy `(.*)"` matching for a JavaScript regex group: the group is
everything up to the last double quote, where `.` does not cross a line
terminator.  Returns none when no closing quote is reachable. -/
def takeToLastQuote : Str → Option Str
  | [] => none
  | c :: cs =>
    if c = '\r' || c = '\n' then none
    else
      match takeToLastQuote cs with
      | some r => some (c :: r)
      | none => if c = '"' then some [] else none

/-- Leftmost match of the JavaScript regex /mute "(.*)"/ against a string,
returning the captured group. -/
def muteExec : Str → Option Str
  | [] => none
  | c :: rest =>
    match (if strStarts (lit "mute \"") (c :: rest)
           then takeToLastQuote ((c :: rest).drop 6) else none) with
    | some g => some g
    | none => muteExec rest

/-- Backtracking for /"(.*)" "(.*)"/ after the literal head: group one is
greedy (the last `" "` separator such that a closing quote follows),
then group two is greedy up to the last quote; `.` crosses no line
terminator. -/
def crossTail : Str → Option (Str × Str)
  | [] => none
  | c :: cs =>
    if c = '\r' || c = '\n' then none
    else
      match crossTail cs with
      | some (g1, g2) => some (c :: g1, g2)
      | none =>
        if strStarts (lit "\" \"") (c :: cs) then
          match takeToLastQuote ((c :: cs).drop 3) with
          | some g2 => some ([], g2)
          | none => none
        else none

/-- Leftmost match of /crosspoint_mute "(.*)" "(.*)"/ returning the two
captured groups. -/
def crosspointExec : Str → Option (Str × Str)
  | [] => none
  | c :: rest =>
    match (if strStarts (lit "crosspoint_mute \"") (c :: rest)
           then crossTail ((c :: rest).drop 17) else none) with
    | some p => some p
    | none => crosspointExec rest

def leadDigits : Str → List Nat
  | [] => []
  | c :: cs => if c.isDigit then (c.toNat - 48) :: leadDigits cs else []

def digitsVal (l : List Nat) : Nat := l.foldl (fun a d => a * 10 + d) 0

/-- JavaScript parseInt(s, 10) on a defined string: skip leading
whitespace, optional sign, then leading decimal digits; NaN (none) when
no digit follows. -/
def jsParseIntStr (s : Str) : Option Int :=
  match trimLeftWs s with
  | '-' :: r =>
    if leadDigits r = [] then none else some (-(digitsVal (leadDigits r) : Int))
  | '+' :: r =>
    if leadDigits r = [] then none else some ((digitsVal (leadDigits r) : Int))
  | t => if leadDigits t = [] then none else some ((digitsVal (leadDigits t) : Int))

/-- JavaScript parseInt(value, 10) where value may be undefined (none),
as produced by destructuring a split with too few fields; parseInt of
undefined is NaN. -/
def jsParseInt : Option Str → Option Int
  | none => none
  | some s => jsParseIntStr s

/-- JavaScript object property write: obj[k] = v on an association list. -/
def setEntry (m : List (Str × Option Int)) (k : Str) (v : Option Int) :
    List (Str × Option Int) :=
  match m with
  | [] => [(k, v)]
  | (k', v') :: rest =>
    if k = k' then (k, v) :: rest else (k', v') :: setEntry rest k v

/-- JavaScript object property read. -/
def getEntry (m : List (Str × Option Int)) (k : Str) : Option (Option Int) :=
  match m with
  | [] => none
  | (k', v') :: rest => if k = k' then some v' else getEntry rest k

structure Config where
  host : Str
  port : Str
  deriving DecidableEq

/-- The TCPHelper socket: an identity (to track liveness) and the
transport-reported isConnected flag. -/
structure Socket where
  id : Nat
  isConnected : Bool
  deriving DecidableEq

inductive Status where
  | ok
  | error
  | disconnected
  deriving DecidableEq

inductive Effect where
  | updateStatus (s : Status) (msg : Option Str)
  | log (level : Str) (msg : Str)
  | send (bytes : Str)
  | checkFeedbacks (kind : Str)
  | updateActionsE
  | updateFeedbacksE
  | updateVariableDefinitionsE
  deriving DecidableEq

/-- The module instance's fields (src/main.js lines 11-16 and config),
plus bookkeeping for socket liveness: liveSockets holds the ids of
created-and-not-yet-destroyed TCPHelper sockets, nextSocketId supplies
fresh ids. -/
structure ModuleState where
  socket : Option Socket
  config : Config
  virtualChannels : List Str
  presets : List Str
  channelMuteStatus : List (Str × Option Int)
  crosspointMuteStatus : List (Str × Option Int)
  liveSockets : List Nat
  nextSocketId : Nat
  deriving DecidableEq

def initialState : ModuleState :=
  { socket := none
    config := { host := [], port := [] }
    virtualChannels := []
    presets := []
    channelMuteStatus := []
    crosspointMuteStatus := []
    liveSockets := []
    nextSocketId := 0 }

/-- sendCommand (src/main.js lines 152-159). -/
def sendCommand (st : ModuleState) (cmd : Str) : ModuleState × List Effect :=
  match st.socket with
  | some s =>
    if s.isConnected then
      (st, [Effect.send (cmd ++ lit "\r\n"),
            Effect.log (lit "debug") (lit "Command sent: " ++ cmd)])
    else
      (st, [Effect.log (lit "error") (lit "Socket not connected")])
  | none => (st, [Effect.log (lit "error") (lit "Socket not connected")])

/-- requestDeviceConfiguration (src/main.js lines 115-118). -/
def requestDeviceConfiguration (st : ModuleState) : ModuleState × List Effect :=
  let r1 := sendCommand st (lit "get virtual_channels")
  let r2 := sendCommand r1.1 (lit "get presets")
  (r2.1, r1.2 ++ r2.2)

/-- processDeviceData (src/main.js lines 121-149). -/
def processDeviceData (st : ModuleState) (data : Str) : ModuleState × List Effect :=
  let logE := Effect.log (lit "debug") (lit "Data received: " ++ data)
  if strStarts (lit "virtual_channels=") data then
    let vcs := (splitChar ',' (data.drop 17)).map jsTrim
    ({ st with virtualChannels := vcs }, [logE, Effect.updateActionsE])
  else if strStarts (lit "presets=") data then
    let ps := (splitChar ',' (data.drop 8)).map
      (fun p => jsTrim (p.filter (fun c => c ≠ '"')))
    ({ st with presets := ps }, [logE, Effect.updateActionsE])
  else if strStarts (lit "mute ") data then
    let parts := splitChar '=' data
    let info := parts.headD []
    let value := (parts.drop 1).head?
    match muteExec info with
    | some channel =>
      ({ st with channelMuteStatus :=
           setEntry st.channelMuteStatus channel (jsParseInt value) },
       [logE, Effect.checkFeedbacks (lit "channelMuteStatus")])
    | none => (st, [logE])
  else if strStarts (lit "crosspoint_mute ") data then
    let parts := splitChar '=' data
    let info := parts.headD []
    let value := (parts.drop 1).head?
    match crosspointExec info with
    | some (input, output) =>
      let key := input ++ [':'] ++ output
      ({ st with crosspointMuteStatus :=
           setEntry st.crosspointMuteStatus key (jsParseInt value) },
       [logE, Effect.checkFeedbacks (lit "crosspointMuteStatus")])
    | none => (st, [logE])
  else (st, [logE])

/-- connectToDevice (src/main.js lines 82-112): destroy any existing
socket, then create a fresh one when host and port are both truthy
(non-empty). -/
def connectToDevice (st : ModuleState) : ModuleState :=
  let st1 :=
    match st.socket with
    | some s =>
      { st with socket := none,
                liveSockets := st.liveSockets.filter (fun i => i ≠ s.id) }
    | none => st
  if st1.config.host ≠ [] ∧ st1.config.port ≠ [] then
    { st1 with socket := some { id := st1.nextSocketId, isConnected := false },
               liveSockets := st1.liveSockets ++ [st1.nextSocketId],
               nextSocketId := st1.nextSocketId + 1 }
  else st1

/-- init (src/main.js lines 19-28): store config, report Ok, connect,
then refresh actions, feedbacks and variable definitions.  The status
update is issued before connectToDevice runs. -/
def init (st : ModuleState) (cfg : Config) : ModuleState × List Effect :=
  (connectToDevice { st with config := cfg },
   [Effect.updateStatus Status.ok none,
    Effect.updateActionsE, Effect.updateFeedbacksE,
    Effect.updateVariableDefinitionsE])

/-- destroy (src/main.js lines 31-37): destroy the socket if present and
null the reference; nothing else is touched. -/
def destroy (st : ModuleState) : ModuleState × List Effect :=
  let st1 :=
    match st.socket with
    | some s =>
      { st with socket := none,
                liveSockets := st.liveSockets.filter (fun i => i ≠ s.id) }
    | none => st
  (st1, [Effect.log (lit "debug") (lit "Module instance destroyed")])

/-- configUpdated (src/main.js lines 40-43). -/
def configUpdated (st : ModuleState) (cfg : Config) : ModuleState × List Effect :=
  (connectToDevice { st with config := cfg }, [])

/-- The socket connect handler (src/main.js lines 92-96); the TCPHelper
transport marks the socket connected before emitting the event. -/
def connectEvent (st : ModuleState) : ModuleState × List Effect :=
  match st.socket with
  | none => (st, [])
  | some s =>
    let st1 := { st with socket := some { s with isConnected := true } }
    let r := requestDeviceConfiguration st1
    (r.1, [Effect.updateStatus Status.ok none,
           Effect.log (lit "info")
             (lit "Connected to SoundStructure at " ++ st.config.host
               ++ [':'] ++ st.config.port)] ++ r.2)

/-- The socket data handler (src/main.js lines 98-100). -/
def dataEvent (st : ModuleState) (chunk : Str) : ModuleState × List Effect :=
  match st.socket with
  | none => (st, [])
  | some _ => processDeviceData st chunk

/-- The socket error handler (src/main.js lines 102-105). -/
def errorEvent (st : ModuleState) (msg : Str) : ModuleState × List Effect :=
  match st.socket with
  | none => (st, [])
  | some _ =>
    (st, [Effect.updateStatus Status.error (some msg),
          Effect.log (lit "error") (lit "Connection error: " ++ msg)])

/-- The socket close handler (src/main.js lines 107-110); the transport
clears isConnected when the connection closes. -/
def closeEvent (st : ModuleState) : ModuleState × List Effect :=
  match st.socket with
  | none => (st, [])
  | some s =>
    ({ st with socket := some { s with isConnected := false } },
     [Effect.updateStatus Status.disconnected (some (lit "Connection closed")),
      Effect.log (lit "warn") (lit "Connection closed")])

/-- External events that can drive a module instance. -/
inductive Ev where
  | initEv (cfg : Config)
  | configUpdatedEv (cfg : Config)
  | connectEv
  | dataEv (chunk : Str)
  | errorEv (msg : Str)
  | closeEv
  | destroyEv
  | sendEv (cmd : Str)
  deriving DecidableEq

def step (st : ModuleState) : Ev → ModuleState
  | Ev.initEv cfg => (init st cfg).1
  | Ev.configUpdatedEv cfg => (configUpdated st cfg).1
  | Ev.connectEv => (connectEvent st).1
  | Ev.dataEv chunk => (dataEvent st chunk).1
  | Ev.errorEv msg => (errorEvent st msg).1
  | Ev.closeEv => (closeEvent st).1
  | Ev.destroyEv => (destroy st).1
  | Ev.sendEv cmd => (sendCommand st cmd).1

def run : ModuleState → List Ev → ModuleState
  | st, [] => st
  | st, e :: es => run (step st e) es

/-- The ids the state's socket field accounts for. -/
def socketIds (st : ModuleState) : List Nat :=
  match st.socket with
  | some s => [s.id]
  | none => []

/-- Liveness invariant: the live sockets are exactly the one referenced
by the socket field (so at most one), and its id is below the fresh-id
counter. -/
def singleSocketInv (st : ModuleState) : Prop :=
  st.liveSockets = socketIds st ∧
    (∀ s, st.socket = some s → s.id < st.nextSocketId)

/-- A state with one connected socket, as reached after init and a
successful connect. -/
def connState : ModuleState :=
  { initialState with
      config := { host := lit "192.168.1.10", port := lit "23" }
      socket := some { id := 0, isConnected := true }
      liveSockets := [0]
      nextSocketId := 1 }

/-- A state whose socket was created but not yet transport-connected. -/
def preConnState : ModuleState :=
  { initialState with
      config := { host := lit "10.0.0.2", port := lit "23" }
      socket := some { id := 0, isConnected := false }
      liveSockets := [0]
      nextSocketId := 1 }

/-- A connected state holding learned device data in every mirror field. -/
def dataState : ModuleState :=
  { connState with
      virtualChannels := [lit "Ch1"]
      presets := [lit "P1"]
      channelMuteStatus := [(lit "Ch1", some 1)]
      crosspointMuteStatus := [(lit "In:Out", some 0)] }

/-- An event trace reaching a connected state: init with a valid config,
then transport connect. -/
def traceToConnected : List Ev :=
  [Ev.initEv { host := lit "10.0.0.2", port := lit "23" }, Ev.connectEv]

def altConfig : Config := { host := lit "10.0.0.3", port := lit "24" }

lemma sendCommand_fst (st : ModuleState) (cmd : Str) : (sendCommand st cmd).1 = st := by
  rcases st with ⟨sock, cfg, vc, pr, cm, xm, ls, ni⟩
  rcases sock with _ | ⟨i, c⟩
  · rfl
  · cases c <;> rfl

lemma requestDeviceConfiguration_fst (st : ModuleState) :
    (requestDeviceConfiguration st).1 = st := by
  simp [requestDeviceConfiguration, sendCommand_fst]

lemma processDeviceData_frame (st : ModuleState) (d : Str) :
    (processDeviceData st d).1.socket = st.socket ∧
    (processDeviceData st d).1.liveSockets = st.liveSockets ∧
    (processDeviceData st d).1.nextSocketId = st.nextSocketId := by
  unfold processDeviceData
  rcases hm : muteExec ((splitChar '=' d).head?.getD []) with _ | ch <;>
  rcases hx : crosspointExec ((splitChar '=' d).head?.getD []) with _ | ⟨i, o⟩ <;>
  repeat' split
  all_goals simp_all

lemma strStarts_shape (p : Char) (ps : Str) (d : Str)
    (h : strStarts (p :: ps) d = true) : ∃ t, d = p :: t ∧ strStarts ps t = true := by
  cases d with
  | nil => simp [strStarts] at h
  | cons c cs =>
    have h' : (p == c && strStarts ps cs) = true := h
    simp only [Bool.and_eq_true, beq_iff_eq] at h'
    exact ⟨cs, by rw [h'.1], h'.2⟩

lemma starts_mute_shape (d : Str) (h : strStarts (lit "mute ") d = true) :
    ∃ t, d = 'm' :: t := by
  have h' : strStarts ('m' :: lit "ute ") d = true := h
  obtain ⟨t, ht, _⟩ := strStarts_shape _ _ _ h'
  exact ⟨t, ht⟩

lemma mute_not_vc (t : Str) :
    strStarts (lit "virtual_channels=") ('m' :: t) = false := rfl

lemma mute_not_pr (t : Str) :
    strStarts (lit "presets=") ('m' :: t) = false := rfl

lemma socketIds_congr (st1 st2 : ModuleState) (h : st1.socket = st2.socket) :
    socketIds st1 = socketIds st2 := by
  unfold socketIds
  rw [h]

lemma errorEvent_fst (st : ModuleState) (m : Str) : (errorEvent st m).1 = st := by
  rcases hs : st.socket with _ | s <;> simp [errorEvent, hs]

lemma inv_initial : singleSocketInv initialState := by
  constructor
  · rfl
  · intro s h
    exact absurd h (by simp [initialState])

lemma connectToDevice_inv (st : ModuleState) (h : singleSocketInv st) :
    singleSocketInv (connectToDevice st) := by
  obtain ⟨hl, hn⟩ := h
  rcases st with ⟨sock, cfg, vc, pr, cm, xm, ls, ni⟩
  rcases sock with _ | ⟨sid, sc⟩ <;>
    simp only [socketIds] at hl <;>
    subst hl <;>
    by_cases hc : ¬cfg.host = [] ∧ ¬cfg.port = [] <;>
    simp [connectToDevice, singleSocketInv, socketIds, hc]

lemma step_inv (st : ModuleState) (e : Ev) (h : singleSocketInv st) :
    singleSocketInv (step st e) := by
  obtain ⟨hl, hn⟩ := h
  cases e with
  | initEv cfg =>
    show singleSocketInv (connectToDevice { st with config := cfg })
    exact connectToDevice_inv _ ⟨by simpa [socketIds] using hl, by simpa using hn⟩
  | configUpdatedEv cfg =>
    show singleSocketInv (connectToDevice { st with config := cfg })
    exact connectToDevice_inv _ ⟨by simpa [socketIds] using hl, by simpa using hn⟩
  | connectEv =>
    show singleSocketInv (connectEvent st).1
    rcases hs : st.socket with _ | s
    · have heq : (connectEvent st).1 = st := by simp [connectEvent, hs]
      rw [heq]
      exact ⟨hl, hn⟩
    · have heq : (connectEvent st).1
          = { st with socket := some { s with isConnected := true } } := by
        simp [connectEvent, hs, requestDeviceConfiguration_fst]
      rw [heq]
      constructor
      · simpa [socketIds, hs] using hl
      · intro s' h'
        simp at h'
        have := hn s hs
        simp [← h', this]
  | dataEv chunk =>
    show singleSocketInv (dataEvent st chunk).1
    rcases hs : st.socket with _ | s
    · have heq : (dataEvent st chunk).1 = st := by simp [dataEvent, hs]
      rw [heq]
      exact ⟨hl, hn⟩
    · have hf := processDeviceData_frame st chunk
      have hd : (dataEvent st chunk).1 = (processDeviceData st chunk).1 := by
        simp [dataEvent, hs]
      rw [hd]
      constructor
      · rw [hf.2.1, socketIds_congr _ st hf.1]
        exact hl
      · intro s' h'
        rw [hf.2.2]
        exact hn s' (hf.1 ▸ h')
  | errorEv msg =>
    show singleSocketInv (errorEvent st msg).1
    rw [errorEvent_fst]
    exact ⟨hl, hn⟩
  | closeEv =>
    show singleSocketInv (closeEvent st).1
    rcases hs : st.socket with _ | s
    · have heq : (closeEvent st).1 = st := by simp [closeEvent, hs]
      rw [heq]
      exact ⟨hl, hn⟩
    · constructor
      · simpa [closeEvent, hs, socketIds] using (by simpa [socketIds, hs] using hl)
      · intro s' h'
        simp [closeEvent, hs] at h'
        have := hn s hs
        simp [closeEvent, hs, ← h', this]
  | destroyEv =>
    show singleSocketInv (destroy st).1
    rcases hs : st.socket with _ | s
    · have heq : (destroy st).1 = st := by simp [destroy, hs]
      rw [heq]
      exact ⟨hl, hn⟩
    · have hl' : st.liveSockets = [s.id] := by simpa [socketIds, hs] using hl
      constructor
      · simp [destroy, hs, socketIds, hl']
      · intro s' h'
        simp [destroy, hs] at h'
  | sendEv cmd =>
    show singleSocketInv (sendCommand st cmd).1
    rw [sendCommand_fst]
    exact ⟨hl, hn⟩

lemma run_inv (evs : List Ev) :
    ∀ st, singleSocketInv st → singleSocketInv (run st evs) := by
  induction evs with
  | nil => intro st h; exact h
  | cons e es ih => intro st h; exact ih _ (step_inv st e h)

/-- Claim C1 (counterexample): delivering the bytes of the split line in
two chunks does not yield the two mute updates A=1 and B=0 the claim
asserts: the code passes each chunk whole to processDeviceData, so the
first chunk records only A=1 and the second chunk, lacking any
recognized prefix, records nothing — channel B never appears in the
mute map. -/
theorem claim1_counterexample :
    ((dataEvent ((dataEvent connState (lit "mute \"A\"=1\r\nmute \"B\"")).1)
        (lit "=0\r\n")).1).channelMuteStatus = [(lit "A", some 1)] ∧
    getEntry ((dataEvent ((dataEvent connState (lit "mute \"A\"=1\r\nmute \"B\"")).1)
        (lit "=0\r\n")).1).channelMuteStatus (lit "B") = none := by
  decide

/-- Claim C1 (amended): there is no line buffer; each inbound chunk is
processed whole.  On the first chunk the mute branch splits at the first
equals sign, the regex captures channel A, and parseInt reads the
leading digit 1 ignoring the trailing fragment, so only A=1 is
recorded; the second chunk matches no recognized prefix and leaves the
state entirely unchanged, so the B half of the split line is lost. -/
theorem claim1_amended :
    (∀ st, processDeviceData st (lit "mute \"A\"=1\r\nmute \"B\"")
        = ({ st with channelMuteStatus :=
               setEntry st.channelMuteStatus (lit "A") (some 1) },
           [Effect.log (lit "debug")
              (lit "Data received: mute \"A\"=1\r\nmute \"B\""),
            Effect.checkFeedbacks (lit "channelMuteStatus")])) ∧
    (∀ st, processDeviceData st (lit "=0\r\n")
        = (st, [Effect.log (lit "debug") (lit "Data received: =0\r\n")])) := by
  constructor <;> intro st <;> rfl

/-- Claim C2 (counterexample): the line consisting of the text
mute "A" starts with the mute prefix and fails the full pattern (it has
no equals sign), yet decoding is not a NoOp: the regex on the part
before the first equals sign still matches, and the code stores
parseInt(undefined) = NaN under channel A, changing the mute map. -/
theorem claim2_counterexample :
    strStarts (lit "mute ") (lit "mute \"A\"") = true ∧
    (splitChar '=' (lit "mute \"A\"")).length = 1 ∧
    connState.channelMuteStatus = [] ∧
    (processDeviceData connState (lit "mute \"A\"")).1.channelMuteStatus
      = [(lit "A", none)] := by
  decide

/-- Claim C2 (amended): an inbound line starting with the mute prefix
produces NoOp exactly when the regex finds no quoted channel name in
the part before the first equals sign: then the state is unchanged and
only a debug log is emitted.  A line with a quoted name but no equals
sign, however, matches the regex and stores NaN (modelled none) for
that channel. -/
theorem claim2_amended :
    (∀ st data, strStarts (lit "mute ") data = true →
      muteExec ((splitChar '=' data).headD []) = none →
      processDeviceData st data
        = (st, [Effect.log (lit "debug") (lit "Data received: " ++ data)])) ∧
    (∀ st, (processDeviceData st (lit "mute \"A\"")).1.channelMuteStatus
        = setEntry st.channelMuteStatus (lit "A") none) := by
  constructor
  · intro st data hM hNone
    obtain ⟨t, rfl⟩ := starts_mute_shape data hM
    simp only [processDeviceData, mute_not_vc, mute_not_pr, hM]
    simp only [List.headD_eq_head?_getD] at hNone
    simp [hNone]
  · intro st
    rfl

theorem claim2_witness :
    processDeviceData initialState (lit "mute A=1")
      = (initialState,
         [Effect.log (lit "debug") (lit "Data received: mute A=1")]) :=
  claim2_amended.1 initialState (lit "mute A=1") (by decide) (by decide)

/-- Claim C4: when there is no socket, or the socket is not
transport-reported connected, sendCommand leaves the whole state (and
so the channel list, preset list and both mute maps) unchanged and only
emits an error log: nothing is sent, nothing is queued, nothing is
raised to the caller. -/
theorem claim4_send_disconnected :
    ∀ st cmd, (∀ s, st.socket = some s → s.isConnected = false) →
      sendCommand st cmd
        = (st, [Effect.log (lit "error") (lit "Socket not connected")]) := by
  intro st cmd h
  rcases hs : st.socket with _ | s
  · simp [sendCommand, hs]
  · simp [sendCommand, hs, h s hs]

theorem claim4_witness :
    sendCommand initialState (lit "get presets")
      = (initialState, [Effect.log (lit "error") (lit "Socket not connected")]) :=
  claim4_send_disconnected initialState (lit "get presets")
    (fun _ h => nomatch h)

/-- Claim C5: on transport connect success the handler reports status Ok
to the host and sends exactly the two startup queries, each terminated
with CRLF, over the newly connected socket. -/
theorem claim5_connect_success :
    ∀ st s, st.socket = some s →
      (connectEvent st).2 =
        [Effect.updateStatus Status.ok none,
         Effect.log (lit "info") (lit "Connected to SoundStructure at "
           ++ st.config.host ++ [':'] ++ st.config.port),
         Effect.send (lit "get virtual_channels\r\n"),
         Effect.log (lit "debug") (lit "Command sent: get virtual_channels"),
         Effect.send (lit "get presets\r\n"),
         Effect.log (lit "debug") (lit "Command sent: get presets")] := by
  intro st s hs
  simp [connectEvent, hs, requestDeviceConfiguration, sendCommand, lit]

theorem claim5_witness :
    (connectEvent preConnState).2 =
      [Effect.updateStatus Status.ok none,
       Effect.log (lit "info") (lit "Connected to SoundStructure at 10.0.0.2:23"),
       Effect.send (lit "get virtual_channels\r\n"),
       Effect.log (lit "debug") (lit "Command sent: get virtual_channels"),
       Effect.send (lit "get presets\r\n"),
       Effect.log (lit "debug") (lit "Command sent: get presets")] :=
  claim5_connect_success preConnState { id := 0, isConnected := false } rfl

/-- Claim C6: decoding the line virtual_channels=Ch1,Ch2, Ch3 wholesale
replaces the channel list with Ch1, Ch2, Ch3 (split on commas, entries
trimmed), and decoding the line presets="Preset A","Preset B" wholesale
replaces the preset list with Preset A, Preset B (quotes stripped,
entries trimmed); no other state field changes. -/
theorem claim6_list_decoding :
    ∀ st,
      (processDeviceData st (lit "virtual_channels=Ch1,Ch2, Ch3")).1
        = { st with virtualChannels := [lit "Ch1", lit "Ch2", lit "Ch3"] } ∧
      (processDeviceData st (lit "presets=\"Preset A\",\"Preset B\"")).1
        = { st with presets := [lit "Preset A", lit "Preset B"] } :=
  fun _ => ⟨rfl, rfl⟩

/-- Claim C7 (counterexample): destroy does not release the mirrored
session data: after destroy on a state holding a learned channel list,
preset list and mute maps, all four fields still hold their values
rather than being cleared. -/
theorem claim7_counterexample :
    (destroy dataState).1.virtualChannels = [lit "Ch1"] ∧
    (destroy dataState).1.presets = [lit "P1"] ∧
    (destroy dataState).1.channelMuteStatus = [(lit "Ch1", some 1)] ∧
    (destroy dataState).1.crosspointMuteStatus = [(lit "In:Out", some 0)] := by
  decide

/-- Claim C7 (amended): destroy closes the socket when one is present
(the socket is destroyed — it leaves the live set — and the reference
is cleared, so no further socket events are delivered: a data chunk
after destroy is ignored), but the mirrored channel list, preset list
and both mute maps are left unchanged, not cleared; they are only
released when the host drops the instance. -/
theorem claim7_amended :
    ∀ st, (destroy st).1.socket = none ∧
      (∀ s, st.socket = some s → s.id ∉ (destroy st).1.liveSockets) ∧
      (destroy st).1.virtualChannels = st.virtualChannels ∧
      (destroy st).1.presets = st.presets ∧
      (destroy st).1.channelMuteStatus = st.channelMuteStatus ∧
      (destroy st).1.crosspointMuteStatus = st.crosspointMuteStatus ∧
      (∀ chunk, dataEvent (destroy st).1 chunk = ((destroy st).1, [])) := by
  intro st
  rcases hs : st.socket with _ | s <;>
    simp [destroy, dataEvent, hs, List.mem_filter]

theorem claim7_witness :
    (0 : Nat) ∉ (destroy dataState).1.liveSockets :=
  (claim7_amended dataState).2.1 { id := 0, isConnected := true } rfl

/-- Claim C8: a configuration update replaces only the config field and
the socket; the mirrored channel list, preset list and both mute maps
keep their prior values, so data learned from the previous device
session survives the reconnect. -/
theorem claim8_config_frame :
    ∀ st cfg,
      (configUpdated st cfg).1.virtualChannels = st.virtualChannels ∧
      (configUpdated st cfg).1.presets = st.presets ∧
      (configUpdated st cfg).1.channelMuteStatus = st.channelMuteStatus ∧
      (configUpdated st cfg).1.crosspointMuteStatus = st.crosspointMuteStatus ∧
      (configUpdated st cfg).1.config = cfg := by
  intro st cfg
  unfold configUpdated connectToDevice
  rcases hs : st.socket with _ | s <;> simp [hs] <;> split <;> simp

/-- Claim C9: the crosspoint map key is the colon-joined concatenation
of input and output, which is not injective: the two distinct
crosspoints (A:B, C) and (A, B:C) decode to distinct group pairs yet
produce the same key A:B:C, so their updates overwrite the same map
entry — after both lines the map holds a single entry with the second
value. -/
theorem claim9_key_collision :
    crosspointExec (lit "crosspoint_mute \"A:B\" \"C\"")
      = some (lit "A:B", lit "C") ∧
    crosspointExec (lit "crosspoint_mute \"A\" \"B:C\"")
      = some (lit "A", lit "B:C") ∧
    (lit "A:B", lit "C") ≠ (lit "A", lit "B:C") ∧
    lit "A:B" ++ [':'] ++ lit "C" = lit "A" ++ [':'] ++ lit "B:C" ∧
    (processDeviceData
        (processDeviceData initialState (lit "crosspoint_mute \"A:B\" \"C\"=1")).1
        (lit "crosspoint_mute \"A\" \"B:C\"=0")).1.crosspointMuteStatus
      = [(lit "A:B:C", some 0)] := by
  decide

/-- Claim C10: init reports status Ok to the host unconditionally — its
effect list is exactly status Ok followed by the three consumer
refreshes, whatever the config — and when host or port is missing no
socket is created, yet the reported status is still Ok and no error or
disconnected status is ever issued by init. -/
theorem claim10_init_status :
    ∀ st cfg,
      (init st cfg).2 = [Effect.updateStatus Status.ok none,
        Effect.updateActionsE, Effect.updateFeedbacksE,
        Effect.updateVariableDefinitionsE] ∧
      (cfg.host = [] ∨ cfg.port = [] → (init st cfg).1.socket = none) := by
  intro st cfg
  refine ⟨rfl, fun h => ?_⟩
  unfold init connectToDevice
  rcases hs : st.socket with _ | s <;>
    simp [hs] <;> split <;> simp_all

theorem claim10_witness :
    (init initialState { host := [], port := lit "23" }).1.socket = none ∧
    (init initialState { host := [], port := lit "23" }).2
      = [Effect.updateStatus Status.ok none,
         Effect.updateActionsE, Effect.updateFeedbacksE,
         Effect.updateVariableDefinitionsE] :=
  ⟨(claim10_init_status initialState { host := [], port := lit "23" }).2
      (Or.inl rfl),
   (claim10_init_status initialState { host := [], port := lit "23" }).1⟩

lemma connectToDevice_next (st : ModuleState) :
    st.nextSocketId ≤ (connectToDevice st).nextSocketId := by
  rcases st with ⟨sock, cfg, vc, pr, cm, xm, ls, ni⟩
  rcases sock with _ | ⟨sid, sc⟩ <;>
    by_cases hc : ¬cfg.host = [] ∧ ¬cfg.port = [] <;>
    simp [connectToDevice, hc]

lemma connectToDevice_sock_id (st : ModuleState) (s : Socket)
    (h : (connectToDevice st).socket = some s) : s.id = st.nextSocketId := by
  rcases st with ⟨sock, cfg, vc, pr, cm, xm, ls, ni⟩
  rcases sock with _ | ⟨sid, sc⟩ <;>
    by_cases hc : ¬cfg.host = [] ∧ ¬cfg.port = [] <;>
    simp [connectToDevice, hc] at h <;>
    simp [← h]

/-- Claim C3: each manager instance has at most one live socket at every
reachable instant: along every event trace from the initial state the
set of created-and-not-destroyed sockets has at most one element, and a
config update arriving while a socket is open first destroys that
socket — its id is not among the live sockets of the successor state —
before any new socket is created, so there is no overlap window. -/
theorem claim3_single_socket :
    ∀ evs : List Ev,
      (run initialState evs).liveSockets.length ≤ 1 ∧
      ∀ cfg s, (run initialState evs).socket = some s →
        s.id ∉ (step (run initialState evs) (Ev.configUpdatedEv cfg)).liveSockets := by
  intro evs
  obtain ⟨hl, hn⟩ := run_inv evs initialState inv_initial
  constructor
  · rw [hl]
    rcases hs : (run initialState evs).socket <;> simp [socketIds, hs]
  · intro cfg s hs
    obtain ⟨hl2, hn2⟩ :=
      step_inv (run initialState evs) (Ev.configUpdatedEv cfg) ⟨hl, hn⟩
    have hlt : s.id < (run initialState evs).nextSocketId := hn s hs
    rw [hl2]
    rcases hs3 : (step (run initialState evs) (Ev.configUpdatedEv cfg)).socket
      with _ | s3
    · simp [socketIds, hs3]
    · have hid : s3.id = (run initialState evs).nextSocketId :=
        connectToDevice_sock_id { run initialState evs with config := cfg } s3 hs3
      simp only [socketIds, hs3, List.mem_singleton]
      omega

theorem claim3_witness :
    (run initialState traceToConnected).liveSockets.length ≤ 1 ∧
    (0 : Nat) ∉ (step (run initialState traceToConnected)
        (Ev.configUpdatedEv altConfig)).liveSockets :=
  ⟨(claim3_single_socket traceToConnected).1,
   (claim3_single_socket traceToConnected).2 altConfig
     { id := 0, isConnected := true } (by decide)⟩

end SoundStructure
